import Mathlib

/-!
Verification development for the ANGELDEMOAPP repository: a CSV-upload
forecasting demo (React/TypeScript wizard frontend; a FastAPI + Prophet
pipeline backend described by the repository's documentation).

The frontend source under `src/frontend/src` (types.ts, App.tsx) is embedded
directly.  The backend pipeline (Ingestor, Profiler, Analyzer, Forecaster,
Summarizer, Narrator) is not among the repository files available under
`src/`; where a claim depends on it, the component is modelled from the
specification's words and the definition says so in its doc comment.

Numbers are embedded as `Rat` (the code works with JS/Python floats; the
claims under verification are order and shape properties, not rounding
properties).  Calendar dates are embedded as day indices (`Nat`), so that
"next calendar day" is `d + 1`; the serialized `ds` string of a day is its
decimal form.
-/

/-- Embedding of `HistoryPoint` from src/frontend/src/types.ts:
`{ ds: string; y: number }`. -/
structure HistoryPoint where
  ds : String
  y : Rat
deriving DecidableEq

/-- Embedding of `ForecastPoint` from src/frontend/src/types.ts:
`{ ds: string; yhat: number; yhat_lower: number; yhat_upper: number }`. -/
structure ForecastPoint where
  ds : String
  yhat : Rat
  yhat_lower : Rat
  yhat_upper : Rat
deriving DecidableEq

/-- Embedding of the `diagnostics` object of `ForecastResponse`
(src/frontend/src/types.ts): `{ outliers: number; missing: number; deduped: number }`. -/
structure Diagnostics where
  outliers : Nat
  missing : Nat
  deduped : Nat
deriving DecidableEq

/-- Embedding of the `profile` object of `ForecastResponse`
(src/frontend/src/types.ts).  TS `number | null` becomes `Option Rat`,
`string | null` becomes `Option String`. -/
structure Profile where
  rows : Nat
  date_min : Option String
  date_max : Option String
  mean : Option Rat
  median : Option Rat
  min : Option Rat
  max : Option Rat
  std : Option Rat
  cv : Option Rat
  missing : Nat
  duplicates : Nat
  outliers : Nat
deriving DecidableEq

/-- Embedding of the `seasonality` object of `ForecastResponse`
(src/frontend/src/types.ts). -/
structure Seasonality where
  weekly_strength : String
  weekend_delta_pct : Option Rat
  acf7 : Option Rat
deriving DecidableEq

/-- Embedding of a changepoint entry of `trend.changepoints`
(src/frontend/src/types.ts): `{ date: string; delta_slope: number }`. -/
structure Changepoint where
  date : String
  delta_slope : Rat
deriving DecidableEq

/-- Embedding of the `trend` object of `ForecastResponse`
(src/frontend/src/types.ts); `changepoints?` is optional inside it. -/
structure Trend where
  slope_30d : Option Rat
  delta_3mo_pct : Option Rat
  changepoints : Option (List Changepoint)
deriving DecidableEq

/-- Embedding of the `forecast_summary` object of `ForecastResponse`
(src/frontend/src/types.ts).  The `band_ratio` key is embedded under the
Lean field name `band_ratio_val`; its serialized key is `"band_ratio"`. -/
structure ForecastSummary where
  p50_5 : Option Rat
  lo_5 : Option Rat
  up_5 : Option Rat
  p50_30 : Option Rat
  lo_30 : Option Rat
  up_30 : Option Rat
  delta_30_pct : Option Rat
  band_ratio_val : Option Rat
  confidence : String
deriving DecidableEq

/-- Embedding of the `explanations` object of `ForecastResponse`
(src/frontend/src/types.ts): `{ business: string; technical: string }`. -/
structure Explanations where
  business : String
  technical : String
deriving DecidableEq

/-- Embedding of a `narrativeScript` element of `ForecastResponse`
(src/frontend/src/types.ts): `{ id: string; text: string; highlight: string[]; waitMs: number }`. -/
structure NarrativeBeat where
  id : String
  text : String
  highlight : List String
  waitMs : Rat
deriving DecidableEq

/-- Embedding of `ForecastResponse` from src/frontend/src/types.ts.
TS optional fields (`?`) become `Option`; `targets?: Record<string, string[]>`
becomes an association list. -/
structure ForecastResponse where
  history : List HistoryPoint
  forecast : List ForecastPoint
  summaryText : String
  warnings : List String
  diagnostics : Option Diagnostics
  profile : Option Profile
  seasonality : Option Seasonality
  trend : Option Trend
  forecast_summary : Option ForecastSummary
  explanations : Option Explanations
  narrativeScript : Option (List NarrativeBeat)
  targets : Option (List (String × List String))
deriving DecidableEq

/-- A flat JSON value, the target of serialization. -/
inductive Json where
  | null : Json
  | str : String → Json
  | num : Rat → Json
  | arr : List Json → Json
  | obj : List (String × Json) → Json

/-- Top-level key list of a JSON object (empty for non-objects). -/
def topKeys : Json → List String
  | .obj fields => fields.map Prod.fst
  | _ => []

/-- Value stored under key `k` of a JSON object. -/
def Json.lookupKey (j : Json) (k : String) : Option Json :=
  match j with
  | .obj fields => fields.lookup k
  | _ => none

/-- Serialize an optional number as JSON: TS `number | null`. -/
def optNum : Option Rat → Json
  | none => .null
  | some q => .num q

/-- Serialize an optional string as JSON: TS `string | null`. -/
def optStr : Option String → Json
  | none => .null
  | some s => .str s

/-- A TS optional (`?`) field: emitted only when the value is present. -/
def optField {α : Type} (k : String) (f : α → Json) : Option α → List (String × Json)
  | none => []
  | some v => [(k, f v)]

/-- The keys `optField` contributes. -/
def optKey {α : Type} (k : String) : Option α → List String
  | none => []
  | some _ => [k]

def HistoryPoint.toJson (p : HistoryPoint) : Json :=
  .obj [("ds", .str p.ds), ("y", .num p.y)]

def ForecastPoint.toJson (p : ForecastPoint) : Json :=
  .obj [("ds", .str p.ds), ("yhat", .num p.yhat),
        ("yhat_lower", .num p.yhat_lower), ("yhat_upper", .num p.yhat_upper)]

def Diagnostics.toJson (d : Diagnostics) : Json :=
  .obj [("outliers", .num d.outliers), ("missing", .num d.missing),
        ("deduped", .num d.deduped)]

def Profile.toJson (p : Profile) : Json :=
  .obj [("rows", .num p.rows), ("date_min", optStr p.date_min),
        ("date_max", optStr p.date_max), ("mean", optNum p.mean),
        ("median", optNum p.median), ("min", optNum p.min),
        ("max", optNum p.max), ("std", optNum p.std), ("cv", optNum p.cv),
        ("missing", .num p.missing), ("duplicates", .num p.duplicates),
        ("outliers", .num p.outliers)]

def Seasonality.toJson (s : Seasonality) : Json :=
  .obj [("weekly_strength", .str s.weekly_strength),
        ("weekend_delta_pct", optNum s.weekend_delta_pct),
        ("acf7", optNum s.acf7)]

def Changepoint.toJson (c : Changepoint) : Json :=
  .obj [("date", .str c.date), ("delta_slope", .num c.delta_slope)]

def Trend.toJson (t : Trend) : Json :=
  .obj ([("slope_30d", optNum t.slope_30d),
         ("delta_3mo_pct", optNum t.delta_3mo_pct)]
    ++ optField "changepoints" (fun l => .arr (l.map Changepoint.toJson)) t.changepoints)

def ForecastSummary.toJson (f : ForecastSummary) : Json :=
  .obj [("p50_5", optNum f.p50_5), ("lo_5", optNum f.lo_5),
        ("up_5", optNum f.up_5), ("p50_30", optNum f.p50_30),
        ("lo_30", optNum f.lo_30), ("up_30", optNum f.up_30),
        ("delta_30_pct", optNum f.delta_30_pct),
        ("band_ratio", optNum f.band_ratio_val),
        ("confidence", .str f.confidence)]

def Explanations.toJson (e : Explanations) : Json :=
  .obj [("business", .str e.business), ("technical", .str e.technical)]

def NarrativeBeat.toJson (b : NarrativeBeat) : Json :=
  .obj [("id", .str b.id), ("text", .str b.text),
        ("highlight", .arr (b.highlight.map .str)), ("waitMs", .num b.waitMs)]

def targetsToJson (t : List (String × List String)) : Json :=
  .obj (t.map (fun p => (p.1, .arr (p.2.map .str))))

/-- Serialization of a whole `ForecastResponse`, key for key in the order of
src/frontend/src/types.ts; TS optional fields are emitted when present. -/
def ForecastResponse.toJson (r : ForecastResponse) : Json :=
  .obj ([("history", .arr (r.history.map HistoryPoint.toJson)),
         ("forecast", .arr (r.forecast.map ForecastPoint.toJson)),
         ("summaryText", .str r.summaryText),
         ("warnings", .arr (r.warnings.map .str))]
    ++ optField "diagnostics" Diagnostics.toJson r.diagnostics
    ++ optField "profile" Profile.toJson r.profile
    ++ optField "seasonality" Seasonality.toJson r.seasonality
    ++ optField "trend" Trend.toJson r.trend
    ++ optField "forecast_summary" ForecastSummary.toJson r.forecast_summary
    ++ optField "explanations" Explanations.toJson r.explanations
    ++ optField "narrativeScript" (fun l => .arr (l.map NarrativeBeat.toJson)) r.narrativeScript
    ++ optField "targets" targetsToJson r.targets)

/-- The complete top-level field-name list of `ForecastResponse` in
src/frontend/src/types.ts, in declaration order. -/
def responseFieldNames : List String :=
  ["history", "forecast", "summaryText", "warnings", "diagnostics", "profile",
   "seasonality", "trend", "forecast_summary", "explanations",
   "narrativeScript", "targets"]

/-- The top-level field names listed by the specification for the serialized
response (spec §6); written from the spec's words, to be compared with the
field list of the source type. -/
def specListedFieldNames : List String :=
  ["history", "forecast", "profile", "seasonality", "trend",
   "forecast_summary", "explanations", "narrativeScript", "warnings",
   "diagnostics"]

/-!
## The backend pipeline, modelled from the specification

The FastAPI + Prophet backend (`backend/app.py`) is not among the repository
files under `src/` — only its README and its frontend callers are.  The
definitions below therefore follow the specification's words (§4 component
design, §7 error taxonomy); each doc comment says which part it models.
-/

/-- Modelled from the spec: a cell of the uploaded tabular data.  A cell that
parses as a calendar date carries the date's day index, a cell that parses as
a real number carries the number; anything else is an unparseable or blank
cell. -/
inductive Cell where
  | blank : Cell
  | text : String → Cell
  | date : Nat → Cell
  | num : Rat → Cell
deriving DecidableEq

/-- Modelled from the spec: the raw tabular input after byte decoding — a
header of column names and the data rows (§4.1 Ingestor input). -/
structure RawTable where
  columns : List String
  rows : List (List Cell)
deriving DecidableEq

/-- Modelled from the spec: the error taxonomy of §7 (`ParseError`,
`ColumnNotFoundError`, `EmptySeriesError`, `InsufficientDataError`,
`ForecastLibraryError`) together with the validation failure that §8 requires
for a non-positive `horizon_days` ("fails with a validation error"). -/
inductive ForecastError where
  | parseError : ForecastError
  | columnNotFoundError : ForecastError
  | emptySeriesError : ForecastError
  | insufficientDataError : ForecastError
  | forecastLibraryError : ForecastError
  | validationError : ForecastError
deriving DecidableEq

/-- A cleaned observation: (day index, value).  Spec §3 `Observation`, with
the calendar date linearized to a day count. -/
abbrev Obs := Nat × Rat

/-- Modelled from the spec: a forecast point before serialization —
(date, point_estimate, lower_bound, upper_bound) with the date as a day
index (§3 `ForecastPoint`). -/
structure DayPoint where
  day : Nat
  yhat : Rat
  yhat_lower : Rat
  yhat_upper : Rat
deriving DecidableEq

/-- Day index rendered as the serialized `ds` string. -/
def dayToDs (d : Nat) : String := toString d

/-- Insert an observation into a day-sorted list (ascending by day). -/
def insertByDay (p : Obs) : List Obs → List Obs
  | [] => [p]
  | q :: t => if p.1 ≤ q.1 then p :: q :: t else q :: insertByDay p t

/-- Sort observations by day ascending (spec §4.1: "sort by date ascending"). -/
def sortByDay (l : List Obs) : List Obs := l.foldr insertByDay []

/-- Modelled from the spec: collapse duplicate dates keeping the last
occurrence (§4.1 "policy: keep last occurrence"). -/
def dedupKeepLast (l : List Obs) : List Obs :=
  l.foldl (fun acc p => acc.filter (fun q => q.1 != p.1) ++ [p]) []

/-- Rational square root approximation through `Nat.sqrt` on a scaled
numerator: `ratSqrt (n / d) = Nat.sqrt (n * d * 10 ^ 6) / (d * 10 ^ 3)`,
0 on non-positive input.  Stands in for the library's floating `sqrt`. -/
def ratSqrt (q : Rat) : Rat :=
  if q ≤ 0 then 0
  else (Nat.sqrt (q.num.toNat * q.den * 1000000) : Rat) / ((q.den : Rat) * 1000)

/-- Arithmetic mean of a list of rationals (0 on the empty list). -/
def meanQ (l : List Rat) : Rat :=
  if l.length = 0 then 0 else l.sum / (l.length : Rat)

/-- Insert into an ascending list of rationals. -/
def insertRat (x : Rat) : List Rat → List Rat
  | [] => [x]
  | y :: t => if x ≤ y then x :: y :: t else y :: insertRat x t

/-- Sort rationals ascending. -/
def sortRat (l : List Rat) : List Rat := l.foldr insertRat []

/-- Median with linear interpolation for even counts (spec §4.2). -/
def medianQ (l : List Rat) : Option Rat :=
  let s := sortRat l
  let n := s.length
  if n = 0 then none
  else if n % 2 = 1 then some (s.getD (n / 2) 0)
  else some ((s.getD (n / 2 - 1) 0 + s.getD (n / 2) 0) / 2)

/-- Population variance (spec §4.2 fixes the population convention). -/
def varianceQ (l : List Rat) : Rat :=
  let m := meanQ l
  if l.length = 0 then 0
  else (l.map (fun y => (y - m) * (y - m))).sum / (l.length : Rat)

/-- Modelled from the spec: the z-score outlier threshold, a named policy
constant (§4.1, §9: "flag values beyond a configurable z-score threshold"). -/
def zScoreThreshold : Rat := 3

/-- Modelled from the spec: count of values beyond the z-score threshold,
decided exactly on squares: `|y - mean| > z * std` iff
`(y - mean)^2 > z^2 * variance` (§4.1: outliers are counted, not removed). -/
def countOutliers (l : List Rat) : Nat :=
  let m := meanQ l
  let v := varianceQ l
  (l.filter (fun y => decide ((y - m) * (y - m) > zScoreThreshold * zScoreThreshold * v))).length

/-- Cell at index `i` of a row read as a date. -/
def cellDate : Cell → Option Nat
  | .date d => some d
  | _ => none

/-- Cell read as a number. -/
def cellNum : Cell → Option Rat
  | .num q => some q
  | _ => none

/-- Parse one data row at the chosen date/value column indices; `none` is a
malformed row (counted as `missing`, spec §4.1). -/
def parseRow (di vi : Nat) (row : List Cell) : Option Obs :=
  match row.get? di, row.get? vi with
  | some cd, some cv =>
    match cellDate cd, cellNum cv with
    | some d, some q => some (d, q)
    | _, _ => none
  | _, _ => none

/-- Modelled from the spec: the Ingestor (§4.1).  Finds the named columns
(`ColumnNotFoundError` when absent), rejects rows whose date or value does
not parse (counted as `missing`), sorts by date, collapses duplicate dates
keeping the last occurrence (counted as `deduped`), counts z-score outliers
without removing them, and fails with `EmptySeriesError` when no valid row
remains. -/
def ingest (t : RawTable) (dateCol valueCol : String) :
    Except ForecastError (List Obs × Diagnostics) :=
  match t.columns.findIdx? (fun c => c == dateCol) with
  | none => .error .columnNotFoundError
  | some di =>
    match t.columns.findIdx? (fun c => c == valueCol) with
    | none => .error .columnNotFoundError
    | some vi =>
      let parsed := t.rows.map (parseRow di vi)
      let valid := parsed.filterMap id
      let missing := t.rows.length - valid.length
      let collapsed := dedupKeepLast valid
      let deduped := valid.length - collapsed.length
      let series := sortByDay collapsed
      if series.isEmpty then .error .emptySeriesError
      else
        let outliers := countOutliers (series.map Prod.snd)
        .ok (series, ⟨outliers, missing, deduped⟩)

/-- Day of the last observation of a day-sorted series (0 when empty). -/
def lastDay (s : List Obs) : Nat :=
  match s.getLast? with
  | some p => p.1
  | none => 0

/-- Value of the last observation (0 when empty). -/
def lastVal (s : List Obs) : Rat :=
  match s.getLast? with
  | some p => p.2
  | none => 0

/-- Modelled from the spec: the Profiler (§4.2) — pure arithmetic over the
cleaned series; `cv = std / mean`, `none` when the mean is 0; the
missing/duplicate/outlier counts are copied from the Ingestor's diagnostics. -/
def profileOf (s : List Obs) (d : Diagnostics) : Profile :=
  let ys := s.map Prod.snd
  let m := meanQ ys
  let sd := ratSqrt (varianceQ ys)
  { rows := s.length
    date_min := (s.head?).map (fun p => dayToDs p.1)
    date_max := (s.getLast?).map (fun p => dayToDs p.1)
    mean := if s.length = 0 then none else some m
    median := medianQ ys
    min := (sortRat ys).head?
    max := (sortRat ys).getLast?
    std := if s.length = 0 then none else some sd
    cv := if m = 0 then none else some (sd / m)
    missing := d.missing
    duplicates := d.deduped
    outliers := d.outliers }

/-- Weekday of a day index; day 0 is taken to be a Monday, so weekdays are
0..4 and the weekend is 5..6. -/
def weekday (d : Nat) : Nat := d % 7

/-- Modelled from the spec: the weekly-strength bucket thresholds, named
policy constants (§4.3, §9): the ratio of inter-weekday variance to total
variance is bucketed at these values. -/
def weeklyStrengthMid : Rat := 1 / 10

def weeklyStrengthHigh : Rat := 3 / 10

/-- Values observed on a given weekday. -/
def valuesOnWeekday (s : List Obs) (w : Nat) : List Rat :=
  (s.filter (fun p => weekday p.1 == w)).map Prod.snd

/-- Modelled from the spec: inter-weekday variance share — the variance of
the weekday group means, weighted by group size, over the total variance
(§4.3 weekly_strength). -/
def weekdayVarianceShare (s : List Obs) : Rat :=
  let ys := s.map Prod.snd
  let m := meanQ ys
  let total := varianceQ ys
  if total = 0 ∨ s.length = 0 then 0
  else
    let between := ((List.range 7).map (fun w =>
      let g := valuesOnWeekday s w
      (g.length : Rat) * (meanQ g - m) * (meanQ g - m))).sum / (s.length : Rat)
    between / total

/-- Modelled from the spec: the 3-level weekly-strength bucket (§4.3),
rendered with the labels the response uses (低/中/高). -/
def weeklyStrength (s : List Obs) : String :=
  let r := weekdayVarianceShare s
  if r ≥ weeklyStrengthHigh then "高"
  else if r ≥ weeklyStrengthMid then "中" else "低"

/-- Modelled from the spec: weekend delta percent —
`(mean(Sat,Sun) - mean(Mon..Fri)) / mean(Mon..Fri) × 100` (§4.3), `none`
when either group is empty or the weekday mean is 0. -/
def weekendDeltaPct (s : List Obs) : Option Rat :=
  let wkend := (s.filter (fun p => weekday p.1 ≥ 5)).map Prod.snd
  let wkday := (s.filter (fun p => weekday p.1 < 5)).map Prod.snd
  if wkend.length = 0 ∨ wkday.length = 0 ∨ meanQ wkday = 0 then none
  else some ((meanQ wkend - meanQ wkday) / meanQ wkday * 100)

/-- Pearson correlation of two equal-length sequences; `none` when either
standard deviation vanishes. -/
def pearson (xs ys : List Rat) : Option Rat :=
  let mx := meanQ xs
  let my := meanQ ys
  let cov := ((xs.zip ys).map (fun p => (p.1 - mx) * (p.2 - my))).sum
  let dx := ratSqrt ((xs.map (fun x => (x - mx) * (x - mx))).sum)
  let dy := ratSqrt ((ys.map (fun y => (y - my) * (y - my))).sum)
  if dx * dy = 0 then none else some (cov / (dx * dy))

/-- Modelled from the spec: autocorrelation at lag 7 — Pearson correlation of
the value sequence against itself shifted by 7; `none` when the series is
shorter than 14 points (§4.3). -/
def lag7Autocorrelation (s : List Obs) : Option Rat :=
  if s.length < 14 then none
  else
    let ys := s.map Prod.snd
    pearson (ys.take (ys.length - 7)) (ys.drop 7)

/-- Least-squares slope of (day, value) pairs; `none` when the regressor has
no spread (fewer than two distinct days). -/
def regressionSlope (s : List Obs) : Option Rat :=
  let n : Rat := s.length
  let xs := s.map (fun p => (p.1 : Rat))
  let ys := s.map Prod.snd
  let sxy := ((xs.zip ys).map (fun p => p.1 * p.2)).sum
  let sx := xs.sum
  let sy := ys.sum
  let sxx := (xs.map (fun x => x * x)).sum
  let den := n * sxx - sx * sx
  if den = 0 then none else some ((n * sxy - sx * sy) / den)

/-- Modelled from the spec: linear-regression slope over the last 30 points,
or fewer when the series is shorter (§4.3 slope_30d). -/
def slope30d (s : List Obs) : Option Rat :=
  regressionSlope (s.drop (s.length - 30))

/-- Modelled from the spec: percent change between the observation nearest to
90 days before the last one and the last value (§4.3 delta_3mo_pct), `none`
when the reference value is 0 or the series is empty. -/
def delta3moPct (s : List Obs) : Option Rat :=
  match s.head? with
  | none => none
  | some h =>
    let target : Int := (lastDay s : Int) - 90
    let ref := s.foldl (fun best p =>
      if ((p.1 : Int) - target).natAbs < ((best.1 : Int) - target).natAbs then p else best) h
    if ref.2 = 0 then none else some ((lastVal s - ref.2) / ref.2 * 100)

/-- Modelled from the spec: the changepoint magnitude threshold, a named
policy constant (§4.3, §9). -/
def changepointThreshold : Rat := 1

/-- Slopes of consecutive observation pairs, each tagged with the date of the
later observation. -/
def rollingSlopes (s : List Obs) : List (Nat × Rat) :=
  (s.zip s.tail).map (fun p =>
    (p.2.1, if p.2.1 = p.1.1 then 0 else (p.2.2 - p.1.2) / ((p.2.1 : Rat) - (p.1.1 : Rat))))

/-- Modelled from the spec: changepoints — positions where the rolling slope
changes sign and the change magnitude exceeds the threshold, each reported as
(date, slope delta); the empty list when none are found (§4.3). -/
def changepointsOf (s : List Obs) : List Changepoint :=
  let sl := rollingSlopes s
  ((sl.zip sl.tail).filter (fun p =>
      decide (p.1.2 * p.2.2 < 0) && decide (|p.2.2 - p.1.2| > changepointThreshold))).map
    (fun p => ⟨dayToDs p.2.1, p.2.2 - p.1.2⟩)

/-- Modelled from the spec: the Seasonality part of the Analyzer output
(§4.3), in the shape the response serializes (types.ts `seasonality`). -/
def seasonalityOf (s : List Obs) : Seasonality :=
  { weekly_strength := weeklyStrength s
    weekend_delta_pct := weekendDeltaPct s
    acf7 := lag7Autocorrelation s }

/-- Modelled from the spec: the Trend part of the Analyzer output (§4.3), in
the shape the response serializes (types.ts `trend`). -/
def trendOf (s : List Obs) : Trend :=
  { slope_30d := slope30d s
    delta_3mo_pct := delta3moPct s
    changepoints := some (changepointsOf s) }

/-- Least-squares trend line (slope, intercept) of the whole series; the
deterministic stand-in for the library's trend fit (spec §4.4 treats the
library internals as out of scope and fixes only the contract). -/
def trendLine (s : List Obs) : Rat × Rat :=
  let sl := (regressionSlope s).getD 0
  if s.length = 0 then (sl, 0)
  else (sl, ((s.map Prod.snd).sum - sl * ((s.map (fun p => (p.1 : Rat))).sum)) / (s.length : Rat))

/-- Half-width of the uncertainty band: the absolute spread of the observed
values, so the band is never negative. -/
def bandHalfWidth (s : List Obs) : Rat :=
  let sorted := sortRat (s.map Prod.snd)
  |sorted.getLastD 0 - sorted.headD 0|

/-- Modelled from the spec: the Forecaster's output points (§4.4) — one point
per future day, days contiguous starting the day after the last historical
observation, point estimate on the fitted trend line, bounds one band
half-width below and above it. -/
def prophetForecast (s : List Obs) (horizon : Nat) : List DayPoint :=
  let line := trendLine s
  let w := bandHalfWidth s
  (List.range horizon).map (fun i =>
    let d := lastDay s + 1 + i
    let c := line.2 + line.1 * (d : Rat)
    { day := d, yhat := c, yhat_lower := c - w, yhat_upper := c + w })

/-- Modelled from the spec: the Forecaster (§4.4) — fails with
`InsufficientDataError` when the series has fewer than 2 points, otherwise
returns the forecast points. -/
def prophetForecastE (s : List Obs) (horizon : Nat) :
    Except ForecastError (List DayPoint) :=
  if s.length < 2 then .error .insufficientDataError
  else .ok (prophetForecast s horizon)

/-- Forecast point used for a day-`n` lookup: the point at index `n - 1`, or
the last available point when the horizon is shorter (spec §4.5). -/
def pickAt (pts : List DayPoint) (i : Nat) : Option DayPoint :=
  if i < pts.length then pts.get? i else pts.getLast?

/-- Modelled from the spec: the confidence bucket thresholds on `band_ratio`,
named policy constants (§4.5, §9). -/
def confidenceHighMax : Rat := 1 / 10

def confidenceMidMax : Rat := 1 / 4

/-- Modelled from the spec: the Summarizer (§4.5) — day-5 and day-30 lookups
(last available point when the horizon is shorter), the 30-day percent delta
against the last observed value, the relative band width at day 30, and the
3-level confidence bucket. -/
def summaryOf (pts : List DayPoint) (lastValue : Rat) : ForecastSummary :=
  let a5 := pickAt pts 4
  let a30 := pickAt pts 29
  let band : Option Rat :=
    match a30 with
    | none => none
    | some p => if p.yhat = 0 then none else some ((p.yhat_upper - p.yhat_lower) / p.yhat)
  { p50_5 := a5.map (fun p => p.yhat)
    lo_5 := a5.map (fun p => p.yhat_lower)
    up_5 := a5.map (fun p => p.yhat_upper)
    p50_30 := a30.map (fun p => p.yhat)
    lo_30 := a30.map (fun p => p.yhat_lower)
    up_30 := a30.map (fun p => p.yhat_upper)
    delta_30_pct :=
      match a30 with
      | none => none
      | some p => if lastValue = 0 then none else some ((p.yhat - lastValue) / lastValue * 100)
    band_ratio_val := band
    confidence :=
      match band with
      | none => "低"
      | some br => if br ≤ confidenceHighMax then "高"
                   else if br ≤ confidenceMidMax then "中" else "低" }

/-- Optional number rendered into narrative text. -/
def optRatText : Option Rat → String
  | none => "不明"
  | some q => toString q

/-- Modelled from the spec: the Narrator's beat sequence (§4.6) — a fixed
small count of template beats with slot-filled numbers, each tagged with the
metric paths it refers to (the dot paths the metric tiles render). -/
def narrate (p : Profile) (se : Seasonality) (tr : Trend) (fs : ForecastSummary) :
    List NarrativeBeat :=
  [⟨"intro", "分析が完了しました。対象データは全" ++ toString p.rows ++ "件です。",
    ["profile.rows"], 3000⟩,
   ⟨"profile", "平均は" ++ optRatText p.mean ++ "、中央値は" ++ optRatText p.median ++ "です。",
    ["profile.mean", "profile.median", "profile.cv"], 4000⟩,
   ⟨"pattern", "週次の季節性は" ++ se.weekly_strength ++ "、3ヶ月変化率は" ++
      optRatText tr.delta_3mo_pct ++ "%です。",
    ["seasonality.weekly_strength", "trend.delta_3mo_pct"], 4000⟩,
   ⟨"forecast", "30日先の予測中央値は" ++ optRatText fs.p50_30 ++ "、最新値比は" ++
      optRatText fs.delta_30_pct ++ "%です。",
    ["forecast.p50_30", "forecast.delta_30_pct"], 4000⟩,
   ⟨"confidence", "予測の信頼度は" ++ fs.confidence ++ "です。",
    ["forecast.confidence"], 3000⟩]

/-- Modelled from the spec: the Narrator's flat explanation pair (§4.6); the
external AI augmentation is absent by default, so the technical text is the
template one. -/
def explanationsOf (p : Profile) (fs : ForecastSummary) : Explanations :=
  { business := "全" ++ toString p.rows ++ "件のデータを分析しました。30日先の予測中央値は" ++
      optRatText fs.p50_30 ++ "、最新値比は" ++ optRatText fs.delta_30_pct ++
      "%、信頼度は" ++ fs.confidence ++ "です。"
    technical := "Prophet を使用。トレンドと季節性を自動で扱えるため、時系列データに適しています。" }

/-- Modelled from the spec: recoverable conditions surfaced as warnings, not
errors (§7): a horizon shorter than 30 days and a series shorter than 30
points are warned about and processing continues. -/
def warningsOf (seriesLen horizon : Nat) : List String :=
  (if horizon < 30 then ["予測期間が30日未満のため、30日指標は最終日の値を使用します。"] else [])
    ++ (if seriesLen < 30 then ["データが30件未満のため、30日傾きは全期間で計算しています。"] else [])

/-- Modelled from the spec: the response assembly — every derived section is
present in a successful response (§3 `ForecastResponse` aggregate, §6 output
shape). -/
def buildResponse (s : List Obs) (diag : Diagnostics) (pts : List DayPoint)
    (horizon : Nat) : ForecastResponse :=
  let prof := profileOf s diag
  let se := seasonalityOf s
  let tr := trendOf s
  let fs := summaryOf pts (lastVal s)
  let beats := narrate prof se tr fs
  { history := s.map (fun p => ⟨dayToDs p.1, p.2⟩)
    forecast := pts.map (fun q => ⟨dayToDs q.day, q.yhat, q.yhat_lower, q.yhat_upper⟩)
    summaryText := (explanationsOf prof fs).business
    warnings := warningsOf s.length horizon
    diagnostics := some diag
    profile := some prof
    seasonality := some se
    trend := some tr
    forecast_summary := some fs
    explanations := some (explanationsOf prof fs)
    narrativeScript := some beats
    targets := some (beats.map (fun b => (b.id, b.highlight))) }

/-- Modelled from the spec: the whole request path (§6, §7, §8).  A
non-positive `horizon_days` fails with the validation error before the
pipeline runs; unreadable bytes are `ParseError`; then
Ingestor → Forecaster → response assembly, each stage failing with its own
single error kind or passing its value forward. -/
def handleForecast (raw : Option RawTable) (dateCol valueCol : String)
    (horizonDays : Int) : Except ForecastError ForecastResponse :=
  if horizonDays < 1 then .error .validationError
  else
    match raw with
    | none => .error .parseError
    | some t =>
      match ingest t dateCol valueCol with
      | .error e => .error e
      | .ok sd =>
        match prophetForecastE sd.1 horizonDays.toNat with
        | .error e => .error e
        | .ok pts => .ok (buildResponse sd.1 sd.2 pts horizonDays.toNat)

/-- A response is complete when every derived section of the aggregate is
present (spec §3: the aggregate bundles history, forecast, profile,
seasonality/trend, summary, explanations, narrative, warnings, diagnostics). -/
def responseComplete (r : ForecastResponse) : Bool :=
  r.diagnostics.isSome && r.profile.isSome && r.seasonality.isSome &&
    r.trend.isSome && r.forecast_summary.isSome && r.explanations.isSome &&
    r.narrativeScript.isSome

/-- The five error kinds named by spec §7. -/
def namedErrorKinds : List ForecastError :=
  [.parseError, .columnNotFoundError, .emptySeriesError,
   .insufficientDataError, .forecastLibraryError]

/-- Metric paths the result tab renders as `data-metric` tiles
(src/frontend/src/App.tsx lines 295-361), grouped by the response section
whose presence makes the tile render. -/
def responseFieldPaths (r : ForecastResponse) : List String :=
  (if r.profile.isSome then
      ["profile.rows", "profile.mean", "profile.median", "profile.cv"] else [])
    ++ (if r.seasonality.isSome then ["seasonality.weekly_strength"] else [])
    ++ (if r.trend.isSome then ["trend.delta_3mo_pct"] else [])
    ++ (if r.forecast_summary.isSome then
        ["forecast.p50_30", "forecast.delta_30_pct", "forecast.confidence"] else [])

/-!
## Frontend state machines (src/frontend/src/App.tsx)
-/

/-- The wizard state of `App` (src/frontend/src/App.tsx): `activeStep` is a JS
number (embedded as `Int`); `hasFile` embeds `file !== null`; the chosen
column names are the `dateCol`/`valueCol` states (empty string = unset). -/
structure WizardState where
  activeStep : Int
  hasFile : Bool
  dateCol : String
  valueCol : String
deriving DecidableEq

/-- The initial wizard state: `useState(0)`, no file, empty columns. -/
def initWizard : WizardState :=
  { activeStep := 0, hasFile := false, dateCol := "", valueCol := "" }

/-- Embedding of `canNext` (src/frontend/src/App.tsx lines 65-74): the switch
over the active step; `!!file` at step 0, both columns non-empty at step 3. -/
def canNext (st : WizardState) : Bool :=
  if st.activeStep = 0 then st.hasFile
  else if st.activeStep = 1 then true
  else if st.activeStep = 2 then true
  else if st.activeStep = 3 then st.dateCol != "" && st.valueCol != ""
  else if st.activeStep = 4 then true
  else false

/-- User actions that can change the wizard state: the back/next buttons
(lines 263-266), the step-1 and step-2 jump buttons (`setActiveStep(2)`,
`setActiveStep(3)`), and the inputs that set the file and the columns. -/
inductive WizardAction where
  | back : WizardAction
  | next : WizardAction
  | selectNature : WizardAction
  | selectMethod : WizardAction
  | setFile : WizardAction
  | setDate : String → WizardAction
  | setValue : String → WizardAction

/-- One action applied to the wizard state, as App.tsx wires it: `back` is
disabled at step 0 and otherwise runs `s => Math.max(0, s - 1)`; `next` is
disabled unless `canNext()` and otherwise runs `s => Math.min(4, s + 1)`; the
jump buttons render only on their own step. -/
def applyAction (a : WizardAction) (st : WizardState) : WizardState :=
  match a with
  | .back => if st.activeStep = 0 then st else { st with activeStep := max 0 (st.activeStep - 1) }
  | .next => if canNext st then { st with activeStep := min 4 (st.activeStep + 1) } else st
  | .selectNature => if st.activeStep = 1 then { st with activeStep := 2 } else st
  | .selectMethod => if st.activeStep = 2 then { st with activeStep := 3 } else st
  | .setFile => { st with hasFile := true }
  | .setDate s => { st with dateCol := s }
  | .setValue s => { st with valueCol := s }

/-- A sequence of actions applied in order. -/
def runActions (acts : List WizardAction) (st : WizardState) : WizardState :=
  acts.foldl (fun s a => applyAction a s) st

/-- The narration-playback state of `App` (src/frontend/src/App.tsx):
`reportMode`, `currentScript`, `highlightedMetrics`. -/
structure NarrationUi where
  reportMode : Bool
  currentScript : Nat
  highlightedMetrics : List String
deriving DecidableEq

/-- Embedding of the 最初へ (replay) button handler (src/frontend/src/App.tsx
lines 476-489): `setCurrentScript(0)`, then the first beat's highlight is
applied when a first beat exists. -/
def replayClick (script : List NarrativeBeat) (st : NarrationUi) : NarrationUi :=
  { st with
    currentScript := 0
    highlightedMetrics :=
      match script.head? with
      | some b => b.highlight
      | none => st.highlightedMetrics }

/-- Embedding of the 報告モード toggle handler (src/frontend/src/App.tsx lines
130-142): the mode flips; when it was off, the script restarts at beat 0 with
the first beat's highlight; when it was on, the highlights are cleared. -/
def reportToggle (script : List NarrativeBeat) (st : NarrationUi) : NarrationUi :=
  if st.reportMode then
    { st with reportMode := false, highlightedMetrics := [] }
  else
    { reportMode := true
      currentScript := 0
      highlightedMetrics :=
        match script.head? with
        | some b => b.highlight
        | none => st.highlightedMetrics }

/-- Embedding of the 次へ (advance) button handler (src/frontend/src/App.tsx
lines 452-468): advance and apply the next beat's highlight while one
remains, clear the highlights on the last beat. -/
def nextClick (script : List NarrativeBeat) (st : NarrationUi) : NarrationUi :=
  if st.currentScript + 1 < script.length then
    { st with
      currentScript := st.currentScript + 1
      highlightedMetrics :=
        match script.get? (st.currentScript + 1) with
        | some b => b.highlight
        | none => st.highlightedMetrics }
  else
    { st with highlightedMetrics := [] }

/-!
## Column auto-pick (src/frontend/src/App.tsx `onUpload`, lines 52-61)
-/

/-- `pat` occurs as a substring of `l`. -/
def subOf (pat : List Char) : List Char → Bool
  | [] => pat.isEmpty
  | c :: t => pat.isPrefixOf (c :: t) || subOf pat t

/-- Case-insensitive substring test: the embedding of a JS
`/lit1|lit2|…/i.test(c)` for literal alternatives. -/
def strContains (s pat : String) : Bool :=
  subOf (pat.data.map Char.toLower) (s.data.map Char.toLower)

/-- `/date|日時|日付|time|timestamp/i.test(c)` from `onUpload`. -/
def dateLike (c : String) : Bool :=
  ["date", "日時", "日付", "time", "timestamp"].any (fun p => strContains c p)

/-- `/close|終|value|price|y/i.test(c)` from `onUpload`. -/
def valueLike (c : String) : Bool :=
  ["close", "終", "value", "price", "y"].any (fun p => strContains c p)

/-- JS `a || b` on string-or-undefined operands: `a` unless it is undefined
(`none`) or the empty string (falsy). -/
def jsOrStr (a b : Option String) : Option String :=
  match a with
  | some s => if s = "" then b else some s
  | none => b

/-- JS `d || ''`: the string unless undefined or empty. -/
def jsStr : Option String → String
  | some s => s
  | none => ""

/-- Embedding of the auto-pick in `onUpload` (src/frontend/src/App.tsx lines
56-60): `d = columns.find(dateLike) || columns[0]`,
`v = columns.find(valueLike) || columns[1] || columns[0]`, then
`setDateCol(d || '')`, `setValueCol(v || '')`. -/
def autoPick (columns : List String) : String × String :=
  let d := jsOrStr (columns.find? dateLike) columns.head?
  let v := jsOrStr (jsOrStr (columns.find? valueLike) (columns.get? 1)) columns.head?
  (jsStr d, jsStr v)

/-- The claim's reading of the auto-pick, written from its words: the date
column falls back to the first column; the value column falls back to the
second column and, when there is no second column, to the first; the empty
string when the preview has no columns. -/
def claimAutoPick (columns : List String) : String × String :=
  let d :=
    match columns.find? dateLike with
    | some c => c
    | none => columns.headD ""
  let v :=
    match columns.find? valueLike with
    | some c => c
    | none =>
      match columns.get? 1 with
      | some c => c
      | none => columns.headD ""
  (d, v)

/-- The auto-pick as the counterexample forces it to be amended: a fallback
column is skipped when its name is the empty string (the JS `||` chain
treats the empty string as falsy). -/
def amendedAutoPick (columns : List String) : String × String :=
  let d :=
    match columns.find? dateLike with
    | some c => c
    | none => columns.headD ""
  let v :=
    match columns.find? valueLike with
    | some c => c
    | none =>
      match columns.get? 1 with
      | some c => if c = "" then columns.headD "" else c
      | none => columns.headD ""
  (d, v)

/-!
## Concrete inputs used by counterexamples and witnesses
-/

/-- A fully populated concrete response. -/
def sampleResponse : ForecastResponse where
  history := [⟨"0", 1⟩]
  forecast := [⟨"1", 1, 0, 2⟩]
  summaryText := "s"
  warnings := ["w"]
  diagnostics := some ⟨0, 0, 0⟩
  profile := some ⟨1, some "0", some "0", some 1, some 1, some 1, some 1, some 0, some 0, 0, 0, 0⟩
  seasonality := some ⟨"低", none, none⟩
  trend := some ⟨none, none, some []⟩
  forecast_summary := some ⟨some 1, some 0, some 2, some 1, some 0, some 2, some 0, some 2, "低"⟩
  explanations := some ⟨"b", "t"⟩
  narrativeScript := some [⟨"intro", "t", ["profile.rows"], 3000⟩]
  targets := some []

/-- A concrete narrative beat. -/
def sampleBeat : NarrativeBeat := ⟨"intro", "分析が完了しました。", ["profile.rows"], 3000⟩

/-- An all-empty response, used only as a default for option extraction. -/
def emptyResponse : ForecastResponse :=
  ⟨[], [], "", [], none, none, none, none, none, none, none, none⟩

/-- A concrete three-row table for running the modelled pipeline. -/
def wTable : RawTable :=
  ⟨["ds", "y"], [[.date 0, .num 10], [.date 1, .num 12], [.date 2, .num 11]]⟩

/-- The modelled pipeline's response on `wTable` with horizon 5. -/
def wResponse : ForecastResponse :=
  ((handleForecast (some wTable) "ds" "y" 5).toOption).getD emptyResponse

/-- A concrete two-point series. -/
def wSeries : List Obs := [(0, 1), (5, 2)]

/-- Default forecast point for option-free indexing. -/
def dfltPoint : ForecastPoint := ⟨"", 0, 0, 0⟩

/-- Default day point for option-free indexing. -/
def dfltDayPoint : DayPoint := ⟨0, 0, 0, 0⟩

/-!
## Theorems
-/

/-- An element read with a default from a position inside the list is a
member of the list. -/
theorem getD_mem {α : Type} (l : List α) (i : Nat) (d : α) (h : i < l.length) :
    l.getD i d ∈ l := by
  induction l generalizing i with
  | nil => simp at h
  | cons a t ih =>
    cases i with
    | zero => simp [List.getD]
    | succ j =>
      simp only [List.getD_cons_succ]
      exact List.mem_cons_of_mem _ (ih j (by simpa using h))

theorem map_fst_optField {α : Type} (k : String) (f : α → Json) (o : Option α) :
    (optField k f o).map Prod.fst = optKey k o := by
  cases o <;> rfl

theorem optKey_sublist {α : Type} (k : String) (o : Option α) :
    (optKey k o).Sublist [k] := by
  cases o
  · exact List.nil_sublist _
  · exact List.Sublist.refl _

/-- The serialized top-level keys of a response, one optional key per TS
optional field, in the order of types.ts. -/
theorem topKeys_response (r : ForecastResponse) :
    topKeys r.toJson =
      ["history", "forecast", "summaryText", "warnings"]
        ++ optKey "diagnostics" r.diagnostics
        ++ optKey "profile" r.profile
        ++ optKey "seasonality" r.seasonality
        ++ optKey "trend" r.trend
        ++ optKey "forecast_summary" r.forecast_summary
        ++ optKey "explanations" r.explanations
        ++ optKey "narrativeScript" r.narrativeScript
        ++ optKey "targets" r.targets := by
  simp [ForecastResponse.toJson, topKeys, List.map_append, map_fst_optField]

/-- C1 (amended): the serialized `ForecastResponse` is a flat JSON object
whose top-level keys are drawn, in order, from the field names of types.ts —
the listed names plus the required `summaryText` and the optional `targets`;
`history`, `forecast`, `summaryText` and `warnings` are always present;
history elements serialize as `{ds, y}`, forecast elements as
`{ds, yhat, yhat_lower, yhat_upper}`, warnings as an array of strings, and
diagnostics as `{outliers, missing, deduped}`. -/
theorem c1_response_shape (r : ForecastResponse) :
    (topKeys r.toJson).Sublist responseFieldNames
    ∧ "history" ∈ topKeys r.toJson ∧ "forecast" ∈ topKeys r.toJson
    ∧ "summaryText" ∈ topKeys r.toJson ∧ "warnings" ∈ topKeys r.toJson
    ∧ (∀ p ∈ r.history, topKeys p.toJson = ["ds", "y"])
    ∧ (∀ p ∈ r.forecast, topKeys p.toJson = ["ds", "yhat", "yhat_lower", "yhat_upper"])
    ∧ r.toJson.lookupKey "warnings" = some (.arr (r.warnings.map .str))
    ∧ (∀ d, r.diagnostics = some d → topKeys d.toJson = ["outliers", "missing", "deduped"]) := by
  refine ⟨?_, ?_, ?_, ?_, ?_, ?_, ?_, ?_, ?_⟩
  · rw [topKeys_response]
    show List.Sublist _ (["history", "forecast", "summaryText", "warnings"]
      ++ ["diagnostics"] ++ ["profile"] ++ ["seasonality"] ++ ["trend"]
      ++ ["forecast_summary"] ++ ["explanations"] ++ ["narrativeScript"] ++ ["targets"])
    exact ((((((((List.Sublist.refl _).append (optKey_sublist _ _)).append
      (optKey_sublist _ _)).append (optKey_sublist _ _)).append
      (optKey_sublist _ _)).append (optKey_sublist _ _)).append
      (optKey_sublist _ _)).append (optKey_sublist _ _)).append (optKey_sublist _ _)
  · rw [topKeys_response]; simp
  · rw [topKeys_response]; simp
  · rw [topKeys_response]; simp
  · rw [topKeys_response]; simp
  · intro p _; rfl
  · intro p _; rfl
  · rfl
  · intro d hd; rfl

/-- C1 counterexample: the serialized response carries the required
`summaryText` key, which is not among the field names the claim lists, so
the top-level key set is not exactly the listed one. -/
theorem c1_counterexample :
    ((topKeys sampleResponse.toJson).contains "summaryText") = true
    ∧ (specListedFieldNames.contains "summaryText") = false
    ∧ ((topKeys sampleResponse.toJson == specListedFieldNames) : Bool) = false := by
  decide

/-- C1 witness: the shape theorem applied to a concrete fully populated
response. -/
theorem c1_response_shape_witness :
    topKeys (HistoryPoint.toJson ⟨"0", 1⟩) = ["ds", "y"]
    ∧ topKeys (ForecastPoint.toJson ⟨"1", 1, 0, 2⟩) = ["ds", "yhat", "yhat_lower", "yhat_upper"]
    ∧ topKeys (Diagnostics.toJson ⟨0, 0, 0⟩) = ["outliers", "missing", "deduped"] :=
  ⟨(c1_response_shape sampleResponse).2.2.2.2.2.1 ⟨"0", 1⟩ (List.mem_cons_self _ _),
   (c1_response_shape sampleResponse).2.2.2.2.2.2.1 ⟨"1", 1, 0, 2⟩ (List.mem_cons_self _ _),
   (c1_response_shape sampleResponse).2.2.2.2.2.2.2.2 ⟨0, 0, 0⟩ rfl⟩

/-- C5 (amended): every serialized narrative beat has exactly the keys
`id`, `text`, `highlight`, `waitMs` (the wait-duration key of types.ts is
`waitMs`, not `wait_ms`); `highlight` serializes as an array of the beat's
metric-path strings, `waitMs` as its wait duration. -/
theorem c5_beat_shape (b : NarrativeBeat) :
    topKeys b.toJson = ["id", "text", "highlight", "waitMs"]
    ∧ b.toJson.lookupKey "highlight" = some (.arr (b.highlight.map .str))
    ∧ b.toJson.lookupKey "waitMs" = some (.num b.waitMs) :=
  ⟨rfl, rfl, rfl⟩

/-- C5 counterexample: a concrete beat's serialized keys are not
`(id, text, highlight, wait_ms)` — there is no `wait_ms` key, the actual key
is `waitMs`. -/
theorem c5_counterexample :
    ((topKeys sampleBeat.toJson == ["id", "text", "highlight", "wait_ms"]) : Bool) = false
    ∧ ((topKeys sampleBeat.toJson).contains "wait_ms") = false
    ∧ ((topKeys sampleBeat.toJson).contains "waitMs") = true := by
  decide

theorem bandHalfWidth_nonneg (s : List Obs) : 0 ≤ bandHalfWidth s := by
  unfold bandHalfWidth
  exact abs_nonneg _

/-- Every modelled forecast point sits inside its own band. -/
theorem prophetForecast_band (s : List Obs) (h : Nat) :
    ∀ p ∈ prophetForecast s h, p.yhat_lower ≤ p.yhat ∧ p.yhat ≤ p.yhat_upper := by
  intro p hp
  simp only [prophetForecast, List.mem_map, List.mem_range] at hp
  obtain ⟨i, _, rfl⟩ := hp
  exact ⟨sub_le_self _ (bandHalfWidth_nonneg s), le_add_of_nonneg_right (bandHalfWidth_nonneg s)⟩

/-- C2: for every point of the Forecaster's output sequence,
`yhat_lower ≤ yhat ≤ yhat_upper`, and likewise for every element of the
`forecast` array of any successful response of the modelled pipeline. -/
theorem c2_forecast_band :
    (∀ (s : List Obs) (h : Nat), ∀ p ∈ prophetForecast s h,
        p.yhat_lower ≤ p.yhat ∧ p.yhat ≤ p.yhat_upper)
    ∧ (∀ (raw : Option RawTable) (dc vc : String) (hz : Int) (r : ForecastResponse),
        handleForecast raw dc vc hz = .ok r →
        ∀ q ∈ r.forecast, q.yhat_lower ≤ q.yhat ∧ q.yhat ≤ q.yhat_upper) := by
  refine ⟨prophetForecast_band, ?_⟩
  intro raw dc vc hz r hr q hq
  unfold handleForecast at hr
  split at hr
  · exact absurd hr (by simp)
  split at hr
  · exact absurd hr (by simp)
  split at hr
  · exact absurd hr (by simp)
  split at hr
  · exact absurd hr (by simp)
  rename_i t sd hingest pts hpts
  injection hr with hr
  subst hr
  unfold prophetForecastE at hpts
  split at hpts
  · exact absurd hpts (by simp)
  injection hpts with hpts
  subst hpts
  simp only [buildResponse, List.mem_map] at hq
  obtain ⟨p, hp, rfl⟩ := hq
  exact prophetForecast_band _ _ p hp

/-- C2 witness: the band inequality at a concrete forecast point of a
concrete series, and at the first forecast element of a concrete pipeline
run. -/
theorem c2_forecast_band_witness :
    ((prophetForecast wSeries 3).getD 0 dfltDayPoint).yhat_lower
        ≤ ((prophetForecast wSeries 3).getD 0 dfltDayPoint).yhat
    ∧ (wResponse.forecast.getD 0 dfltPoint).yhat_lower
        ≤ (wResponse.forecast.getD 0 dfltPoint).yhat := by
  refine ⟨(c2_forecast_band.1 wSeries 3 _ (getD_mem _ _ _ (by decide))).1, ?_⟩
  exact (c2_forecast_band.2 (some wTable) "ds" "y" 5 wResponse rfl _
    (getD_mem _ _ _ (by decide))).1

/-- C3: for a series of at least 2 points and a positive horizon, the
modelled Forecaster succeeds, its output has length exactly the horizon, and
the output days are the consecutive days starting the day after the last
historical day. -/
theorem c3_forecast_length_dates (s : List Obs) (h : Nat)
    (hlen : 2 ≤ s.length) (_hpos : 1 ≤ h) :
    prophetForecastE s h = .ok (prophetForecast s h)
    ∧ (prophetForecast s h).length = h
    ∧ ∀ i, i < h → ((prophetForecast s h).getD i dfltDayPoint).day = lastDay s + 1 + i := by
  refine ⟨?_, ?_, ?_⟩
  · unfold prophetForecastE
    rw [if_neg]
    omega
  · simp [prophetForecast]
  · intro i hi
    unfold prophetForecast
    simp [List.getD_eq_getElem?_getD, List.getElem?_map, List.getElem?_range hi]

/-- C3 witness: the theorem applied to a concrete two-point series and
horizon 3. -/
theorem c3_forecast_length_dates_witness :
    (prophetForecast wSeries 3).length = 3
    ∧ ((prophetForecast wSeries 3).getD 2 dfltDayPoint).day = lastDay wSeries + 1 + 2 :=
  ⟨(c3_forecast_length_dates wSeries 3 (by decide) (by decide)).2.1,
   (c3_forecast_length_dates wSeries 3 (by decide) (by decide)).2.2 2 (by decide)⟩

/-- Every error value of the taxonomy is one of the five named kinds or the
validation error. -/
theorem anyErrorNamed (e : ForecastError) : e ∈ namedErrorKinds ∨ e = .validationError := by
  cases e <;> simp [namedErrorKinds]

/-- C4 (amended): every request either yields a complete response — every
derived section present — or fails with exactly one error kind: one of the
five named by the taxonomy, or the validation error for a non-positive
horizon; no partial response is produced. -/
theorem c4_total_outcome (raw : Option RawTable) (dc vc : String) (hz : Int) :
    match handleForecast raw dc vc hz with
    | .ok r => responseComplete r = true
    | .error e => e ∈ namedErrorKinds ∨ e = .validationError := by
  unfold handleForecast
  split
  · rename_i r heq
    split at heq
    · exact absurd heq (by simp)
    split at heq
    · exact absurd heq (by simp)
    split at heq
    · exact absurd heq (by simp)
    split at heq
    · exact absurd heq (by simp)
    · injection heq with heq
      subst heq
      rfl
  · exact anyErrorNamed _

/-- C4 counterexample: a request with horizon 0 fails with the validation
error, which is none of the five error kinds the claim names. -/
theorem c4_counterexample :
    handleForecast (some wTable) "ds" "y" 0 = .error .validationError
    ∧ (namedErrorKinds.contains .validationError) = false :=
  ⟨rfl, by decide⟩

/-- C8: with `horizon_days = 0` the request path fails with the validation
error — it returns an error, not a response with an empty forecast. -/
theorem c8_zero_horizon (raw : Option RawTable) (dc vc : String) :
    handleForecast raw dc vc 0 = .error .validationError := rfl

/-- C6: from any playback state, the replay button resets the current beat
to index 0 and sets the highlighted metrics to beat 0's highlight set
(leaving the report-mode flag alone), and switching report mode on performs
the same reset with the flag raised. -/
theorem c6_replay_restart (script : List NarrativeBeat) (st : NarrationUi)
    (b : NarrativeBeat) (hb : script.head? = some b) :
    replayClick script st = ⟨st.reportMode, 0, b.highlight⟩
    ∧ (st.reportMode = false → reportToggle script st = ⟨true, 0, b.highlight⟩) := by
  constructor
  · simp [replayClick, hb]
  · intro hmode
    simp [reportToggle, hmode, hb]

/-- C6 witness: the reset applied from a concrete mid-playback state over a
concrete one-beat script. -/
theorem c6_replay_restart_witness :
    replayClick [sampleBeat] ⟨false, 3, ["x"]⟩ = ⟨false, 0, sampleBeat.highlight⟩
    ∧ reportToggle [sampleBeat] ⟨false, 3, ["x"]⟩ = ⟨true, 0, sampleBeat.highlight⟩ :=
  ⟨(c6_replay_restart [sampleBeat] ⟨false, 3, ["x"]⟩ sampleBeat rfl).1,
   (c6_replay_restart [sampleBeat] ⟨false, 3, ["x"]⟩ sampleBeat rfl).2 rfl⟩

/-- C7: in any successful response of the modelled pipeline, every metric
path in every narrative beat's highlight set is a metric path the response's
tiles render — the beat highlights only fields that exist in the same
response. -/
theorem c7_highlight_paths (raw : Option RawTable) (dc vc : String) (hz : Int)
    (r : ForecastResponse) (hr : handleForecast raw dc vc hz = .ok r)
    (script : List NarrativeBeat) (hs : r.narrativeScript = some script)
    (b : NarrativeBeat) (hb : b ∈ script) (pa : String) (hp : pa ∈ b.highlight) :
    pa ∈ responseFieldPaths r := by
  unfold handleForecast at hr
  split at hr
  · exact absurd hr (by simp)
  split at hr
  · exact absurd hr (by simp)
  split at hr
  · exact absurd hr (by simp)
  split at hr
  · exact absurd hr (by simp)
  injection hr with hr
  subst hr
  simp only [buildResponse, Option.some.injEq] at hs
  subst hs
  simp only [responseFieldPaths, buildResponse, Option.isSome_some, if_pos]
  simp only [narrate, List.mem_cons, List.not_mem_nil, or_false] at hb
  rcases hb with rfl | rfl | rfl | rfl | rfl <;>
    simp only [List.mem_cons, List.not_mem_nil, or_false] at hp <;>
    rcases hp with rfl | rfl | rfl <;> simp

/-- C7 witness: a highlight path of the second beat of a concrete pipeline
run exists among the same response's rendered metric paths. -/
theorem c7_highlight_paths_witness : "profile.mean" ∈ responseFieldPaths wResponse :=
  c7_highlight_paths (some wTable) "ds" "y" 5 wResponse rfl
    (wResponse.narrativeScript.getD []) rfl
    ((wResponse.narrativeScript.getD []).getD 1 sampleBeat)
    (getD_mem _ _ _ (by decide)) "profile.mean" (by decide)

/-- One wizard action keeps the step within 0..4. -/
theorem applyAction_bounds (a : WizardAction) (st : WizardState)
    (h0 : 0 ≤ st.activeStep) (h4 : st.activeStep ≤ 4) :
    0 ≤ (applyAction a st).activeStep ∧ (applyAction a st).activeStep ≤ 4 := by
  cases a with
  | back =>
    simp only [applyAction]
    split
    · exact ⟨h0, h4⟩
    · exact ⟨le_max_left _ _, max_le (by norm_num) (by omega)⟩
  | next =>
    simp only [applyAction]
    split
    · exact ⟨le_min (by norm_num) (by omega), min_le_left _ _⟩
    · exact ⟨h0, h4⟩
  | selectNature =>
    simp only [applyAction]
    split
    · exact ⟨by norm_num, by norm_num⟩
    · exact ⟨h0, h4⟩
  | selectMethod =>
    simp only [applyAction]
    split
    · exact ⟨by norm_num, by norm_num⟩
    · exact ⟨h0, h4⟩
  | setFile => exact ⟨h0, h4⟩
  | setDate s => exact ⟨h0, h4⟩
  | setValue s => exact ⟨h0, h4⟩

/-- A run of wizard actions keeps the step within 0..4. -/
theorem runActions_bounds (acts : List WizardAction) (st : WizardState)
    (h0 : 0 ≤ st.activeStep) (h4 : st.activeStep ≤ 4) :
    0 ≤ (runActions acts st).activeStep ∧ (runActions acts st).activeStep ≤ 4 := by
  induction acts generalizing st with
  | nil => exact ⟨h0, h4⟩
  | cons a t ih =>
    have hb := applyAction_bounds a st h0 h4
    exact ih (applyAction a st) hb.1 hb.2

/-- C9: from the initial state, no sequence of wizard actions moves
`activeStep` out of 0..4; the back button maps the step to
`max 0 (step - 1)`, the next button maps it to `min 4 (step + 1)` exactly
when `canNext` holds and does nothing otherwise; and `canNext` demands a
chosen file at step 0 and both chosen columns at step 3. -/
theorem c9_wizard_range :
    (∀ acts : List WizardAction,
      0 ≤ (runActions acts initWizard).activeStep
      ∧ (runActions acts initWizard).activeStep ≤ 4)
    ∧ (∀ st : WizardState, (applyAction .back st).activeStep = max 0 (st.activeStep - 1))
    ∧ (∀ st : WizardState, canNext st = true →
        (applyAction .next st).activeStep = min 4 (st.activeStep + 1))
    ∧ (∀ st : WizardState, canNext st = false → applyAction .next st = st)
    ∧ (∀ st : WizardState, st.activeStep = 0 → canNext st = st.hasFile)
    ∧ (∀ st : WizardState, st.activeStep = 3 →
        canNext st = (st.dateCol != "" && st.valueCol != "")) := by
  refine ⟨?_, ?_, ?_, ?_, ?_, ?_⟩
  · intro acts
    exact runActions_bounds acts initWizard (by decide) (by decide)
  · intro st
    simp only [applyAction]
    split
    · rename_i h
      rw [h]
      decide
    · rfl
  · intro st h
    simp only [applyAction, h, if_true]
  · intro st h
    simp only [applyAction, h, Bool.false_eq_true, if_false]
  · intro st h
    unfold canNext
    rw [if_pos h]
  · intro st h
    unfold canNext
    rw [if_neg (by omega), if_neg (by omega), if_neg (by omega), if_pos h]

/-- C9 witness: the range bound after a concrete action run, and the next /
back / canNext equations at concrete states. -/
theorem c9_wizard_range_witness :
    ((runActions [.setFile, .next, .next, .back] initWizard).activeStep ≤ 4)
    ∧ (applyAction .back ⟨0, false, "", ""⟩).activeStep = max 0 (0 - 1)
    ∧ (applyAction .next ⟨0, true, "", ""⟩).activeStep = min 4 (0 + 1)
    ∧ applyAction .next ⟨0, false, "", ""⟩ = ⟨0, false, "", ""⟩
    ∧ canNext ⟨3, true, "Date", "Close"⟩ = ("Date" != "" && "Close" != "") :=
  ⟨(c9_wizard_range.1 [.setFile, .next, .next, .back]).2,
   c9_wizard_range.2.1 ⟨0, false, "", ""⟩,
   c9_wizard_range.2.2.1 ⟨0, true, "", ""⟩ rfl,
   c9_wizard_range.2.2.2.1 ⟨0, false, "", ""⟩ rfl,
   c9_wizard_range.2.2.2.2.2 ⟨3, true, "Date", "Close"⟩ rfl⟩

/-- A column matched by the date pattern is not the empty string. -/
theorem dateLike_ne_empty (c : String) (h : dateLike c = true) : c ≠ "" := by
  intro he
  rw [he] at h
  exact absurd h (by decide)

/-- A column matched by the value pattern is not the empty string. -/
theorem valueLike_ne_empty (c : String) (h : valueLike c = true) : c ≠ "" := by
  intro he
  rw [he] at h
  exact absurd h (by decide)

theorem jsStr_eq_getD (o : Option String) : jsStr o = o.getD "" := by
  cases o <;> rfl

/-- C10 (amended): the auto-pick selects the first column matching the date
pattern, else the first column; and the first column matching the value
pattern, else the second column — skipped when its name is the empty string,
as the JS `||` chain treats the empty string as falsy — and then the first
column; a selection is the empty string when no fallback column remains (in
particular when the preview has no columns). -/
theorem c10_auto_pick (columns : List String) :
    autoPick columns = amendedAutoPick columns := by
  unfold autoPick amendedAutoPick
  cases hd : columns.find? dateLike with
  | some c =>
    have hc : ¬ c = "" := dateLike_ne_empty c (List.find?_some hd)
    cases hv : columns.find? valueLike with
    | some c2 =>
      have hc2 : ¬ c2 = "" := valueLike_ne_empty c2 (List.find?_some hv)
      simp [jsOrStr, jsStr_eq_getD, hc, hc2]
    | none =>
      cases hg : columns.get? 1 with
      | some c2 =>
        by_cases hc2 : c2 = ""
        · simp [jsOrStr, jsStr_eq_getD, hc, hc2]
        · simp [jsOrStr, jsStr_eq_getD, hc, hc2]
      | none =>
        simp [jsOrStr, jsStr_eq_getD, hc]
  | none =>
    cases hv : columns.find? valueLike with
    | some c2 =>
      have hc2 : ¬ c2 = "" := valueLike_ne_empty c2 (List.find?_some hv)
      simp [jsOrStr, jsStr_eq_getD, hc2]
    | none =>
      cases hg : columns.get? 1 with
      | some c2 =>
        by_cases hc2 : c2 = ""
        · simp [jsOrStr, jsStr_eq_getD, hc2]
        · simp [jsOrStr, jsStr_eq_getD, hc2]
      | none =>
        simp [jsOrStr, jsStr_eq_getD]

/-- C10 counterexample: with columns `["A", ""]` (no pattern matches, the
second column name empty) the code falls through the falsy second column to
the first and picks `("A", "A")`, while the claim's literal fallback order
picks the second column `""` for the value. -/
theorem c10_counterexample :
    autoPick ["A", ""] = ("A", "A")
    ∧ claimAutoPick ["A", ""] = ("A", "")
    ∧ ((autoPick ["A", ""] == claimAutoPick ["A", ""]) : Bool) = false := by
  refine ⟨rfl, rfl, ?_⟩
  decide
